import Mathlib

/-!
Shallow embedding of the OAuth2 authorization / token-lifecycle subsystem of
the ravelry-rs repository, together with the local interactive callback
receiver of the CLI.

Sources embedded:
  - crates/ravelry/src/auth/oauth2.rs   (OAuth2Token, RawTokenResponse,
    RavelryOAuth2Client, OAuth2Auth)
  - crates/ravelry/src/auth/basic.rs    (BasicAuth and its Debug impl)
  - crates/ravelry/src/error.rs         (RavelryError)
  - crates/ravelry-cli/src/main.rs      (wait_for_oauth_callback, CliError)

Modelling conventions:
  - instants in time are `Int` ticks (nanoseconds since the Unix epoch);
    `OffsetDateTime::now_utc()` becomes an explicit `now : Int` parameter,
    constrained to the representable range where a claim needs it;
  - the `time` 0.3 crate can only represent datetimes in years −9999 to
    +9999, and `OffsetDateTime + time::Duration` goes through
    `checked_add(..).expect("resulting value is out of range")`, i.e. it
    PANICS when the sum leaves that range; computations that can reach
    this panic therefore return an `Option`, with `none` modelling the
    panic;
  - `std::time::Duration` is a pair of a `u64` second count and a
    sub-second nanosecond count; `time::Duration::try_from` fails exactly
    when the second count exceeds `i64::MAX`;
  - network I/O is modelled by passing the observed outcome (transport
    error, or an HTTP response) as an argument;
  - randomness (`CsrfToken::new_random`) is modelled by passing the
    sampled token as an argument.
-/

namespace Ravelry

/-! ## Generic string helpers mirroring the Rust standard library -/

/-- Unicode `White_Space` property, the split class of Rust's
`str::split_whitespace`. -/
def isRustWhitespace (c : Char) : Bool :=
  let n := c.toNat
  decide ((0x09 ≤ n ∧ n ≤ 0x0D) ∨ n = 0x20 ∨ n = 0x85 ∨ n = 0xA0 ∨
    n = 0x1680 ∨ (0x2000 ≤ n ∧ n ≤ 0x200A) ∨ n = 0x2028 ∨ n = 0x2029 ∨
    n = 0x202F ∨ n = 0x205F ∨ n = 0x3000)

/-- Splitting a character list at every character matching `p`, keeping
empty pieces — the semantics of Rust `str::split` with a char/predicate
pattern.  Strings are handled through their character lists so that
every operation is structurally recursive and evaluates by reduction. -/
def splitOnPred (p : Char → Bool) : List Char → List (List Char)
  | [] => [[]]
  | c :: rest =>
    match splitOnPred p rest with
    | [] => [[c]]
    | h :: t => if p c then [] :: h :: t else (c :: h) :: t

/-- Rust `str::split_whitespace`: split on whitespace and discard empty
pieces (so runs of whitespace and leading/trailing whitespace produce no
empty items). -/
def splitWhitespace (s : String) : List String :=
  ((splitOnPred isRustWhitespace s.data).filter (fun l => !l.isEmpty)).map
    String.mk

/-- Rust `str::split` with a single-character separator, keeping empty
pieces. -/
def splitChar (sep : Char) (s : String) : List String :=
  (splitOnPred (fun c => c = sep) s.data).map String.mk

/-- Rust `str::strip_prefix` on character lists: `some` of the remainder
when the second list starts with the first, otherwise `none`. -/
def stripPreL : List Char → List Char → Option (List Char)
  | [], s => some s
  | _ :: _, [] => none
  | a :: p, b :: s => if a = b then stripPreL p s else none

/-- Rust `str::strip_prefix`. -/
def stripPre (p s : String) : Option String :=
  (stripPreL p.data s.data).map String.mk

/-! ## CLI error type (crates/ravelry-cli/src/main.rs, `enum CliError`)

Payloads of wrapped foreign error types are modelled as their display
strings. -/

inductive CliError where
  | MissingCredentials (msg : String)
  | Api (msg : String)
  | Json (msg : String)
  | Config (msg : String)
  | Io (msg : String)
  | Other (msg : String)
deriving DecidableEq, Repr

/-! ## The callback receiver (`wait_for_oauth_callback`)

The TLS setup stages (certificate generation, PEM round-trip, config
build, bind) either succeed or abort the whole call before the accept
loop; the claims under study concern the accept loop and the request
parse, so the embedding starts at the accept loop.  Each iteration of the
loop observes one event on the listener: an accept error (which the `?`
operator propagates, terminating the wait), a failed TLS handshake (the
loop continues), or a successful handshake delivering the single HTTP
request line subsequently read from the stream. -/

inductive ConnEvent where
  | acceptErr (msg : String)
  | hsFail (msg : String)
  | hsOk (requestLine : String)
deriving DecidableEq, Repr

/-- Extraction of the authorization code from the request line, the exact
`split_whitespace().nth(1)` / `strip_prefix` / `find_map` chain of
`wait_for_oauth_callback`. -/
def extract_code (request_line : String) : Option String :=
  ((splitWhitespace request_line)[1]?.bind (fun path =>
    Option.orElse (stripPre "/callback?" path)
      (fun _ => stripPre "/callback/?" path))).bind
    (fun query =>
      (splitChar '&' query).findSome? (fun param => stripPre "code=" param))

/-- Outcome of the request-parsing stage of `wait_for_oauth_callback`: the
code when one is found, otherwise the `MissingCredentials` error produced
by `ok_or`.  The best-effort success-page write that follows on the ok
path is modelled as succeeding. -/
def handle_request (line : String) : Except CliError String :=
  match extract_code line with
  | some code => Except.ok code
  | none => Except.error
      (CliError.MissingCredentials "No authorization code received in callback")

/-- The accept/handshake loop of `wait_for_oauth_callback` over a finite
trace of connection events: an accept error propagates, a handshake
failure is skipped, the first successful handshake breaks out of the loop
with its request line.  `none` means the trace was exhausted with the
loop still waiting for a connection. -/
def acceptLoop : List ConnEvent → Option (Except CliError String)
  | [] => none
  | ConnEvent.acceptErr m :: _ => some (Except.error (CliError.Io m))
  | ConnEvent.hsFail _ :: rest => acceptLoop rest
  | ConnEvent.hsOk line :: _ => some (Except.ok line)

/-- The callback wait from the accept loop onwards: loop until a
handshake succeeds, then parse the request line.  `none` means the wait
is still blocked in `accept`. -/
def wait_for_oauth_callback (events : List ConnEvent) :
    Option (Except CliError String) :=
  match acceptLoop events with
  | none => none
  | some (Except.error e) => some (Except.error e)
  | some (Except.ok line) => some (handle_request line)

/-- Modelled from the spec's words, for comparison with `extract_code`:
take the request line's path component (the second whitespace-separated
word), require it to start with `/callback?` or `/callback/?`, and look
up a `code` parameter in the remaining query string. -/
def spec_extract_code (line : String) : Option String :=
  match (splitWhitespace line)[1]? with
  | none => none
  | some path =>
    let query? : Option String :=
      if List.isPrefixOf "/callback?".data path.data then
        some (String.mk (path.data.drop 10))
      else if List.isPrefixOf "/callback/?".data path.data then
        some (String.mk (path.data.drop 11))
      else none
    match query? with
    | none => none
    | some query =>
      ((splitChar '&' query).find?
        (fun p => List.isPrefixOf "code=".data p.data)).map
        (fun p => String.mk (p.data.drop 5))

/-! ## Token model (crates/ravelry/src/auth/oauth2.rs) -/

/-- Largest value of a Rust `i64`. -/
def i64Max : Nat := 2 ^ 63 - 1

/-- Modulus of a Rust `u64`. -/
def u64Mod : Nat := 2 ^ 64

/-- Rust `u64 as i64`: two's-complement reinterpretation, wrapping for
values at or above `2 ^ 63`. -/
def castU64toI64 (n : Nat) : Int :=
  let m := n % u64Mod
  if m < 2 ^ 63 then (m : Int) else (m : Int) - (u64Mod : Int)

/-- Model of `std::time::Duration`: a whole-second count (a `u64` in
Rust) plus sub-second nanoseconds. -/
structure StdDuration where
  secs : Nat
  nanos : Nat
deriving DecidableEq, Repr

/-- Length of the duration in nanosecond ticks. -/
def StdDuration.ticks (d : StdDuration) : Int :=
  (d.secs : Int) * 1000000000 + (d.nanos : Int)

/-- Model of `time::Duration::try_from(std duration)`: the `time` crate
stores whole seconds in an `i64`, so the conversion fails exactly when
the second count exceeds `i64::MAX`. -/
def tryFromStd (d : StdDuration) : Option Int :=
  if d.secs ≤ i64Max then some d.ticks else none

/-- Earliest instant representable by `time::OffsetDateTime` without the
`large-dates` feature (`-9999-01-01T00:00:00Z`), in nanosecond ticks
from the Unix epoch. -/
def odtMinTicks : Int := -377705116800000000000

/-- Latest instant representable by `time::OffsetDateTime`
(`9999-12-31T23:59:59.999999999Z`), in nanosecond ticks from the Unix
epoch. -/
def odtMaxTicks : Int := 253402300799999999999

/-- Model of `OffsetDateTime::checked_add(Duration)`: the sum when it is
representable, `none` otherwise.  The `+` operator of the `time` crate
is `checked_add(..).expect("resulting value is out of range")`, so
`none` here corresponds to a panic of the real program. -/
def checkedAddODT (now d : Int) : Option Int :=
  if odtMinTicks ≤ now + d ∧ now + d ≤ odtMaxTicks then some (now + d)
  else none

/-- Model of `OAuth2Token`, with instants as `Int` nanosecond ticks. -/
structure OAuth2Token where
  access_token : String
  refresh_token : Option String
  expires_at : Option Int
  scope : Option String
  token_type : Option String
deriving DecidableEq, Repr

/-- Model of `OAuth2Token::is_expired`, with `OffsetDateTime::now_utc()`
passed as `now`.  The skew is converted with
`time::Duration::try_from(skew).unwrap_or(time::Duration::ZERO)` and the
token is expired when `now + skew >= expires_at`; an absent `expires_at`
means the token never expires.  The datetime sum `now + skew` goes
through `checkedAddODT`, so the result is `none` when the real
`OffsetDateTime + Duration` would panic out of range. -/
def OAuth2Token.is_expired (t : OAuth2Token) (skew : StdDuration)
    (now : Int) : Option Bool :=
  match t.expires_at with
  | some expiresAt =>
    let skewTicks := (tryFromStd skew).getD 0
    (checkedAddODT now skewTicks).map (fun sum => decide (sum ≥ expiresAt))
  | none => some false

/-- Model of the private `RawTokenResponse` deserialized from the token
endpoint's JSON body (`expires_in` is a `u64` second count). -/
structure RawTokenResponse where
  access_token : String
  token_type : Option String
  expires_in : Option Nat
  refresh_token : Option String
  scope : Option String
deriving DecidableEq, Repr

/-- Model of `RawTokenResponse::into_oauth2_token`, with the
`OffsetDateTime::now_utc()` taken at conversion time passed as `now`.
The absolute expiry is `now + time::Duration::seconds(expires_in as
i64)`, computed inside `expires_in.map`; the `as i64` cast wraps for
second counts at or above `2 ^ 63`, and the datetime sum panics when
out of range (the overall `none` models that panic escaping the
closure). -/
def RawTokenResponse.into_oauth2_token (r : RawTokenResponse)
    (now : Int) : Option OAuth2Token :=
  match r.expires_in with
  | none => some (OAuth2Token.mk r.access_token r.refresh_token none
      r.scope r.token_type)
  | some secs =>
    (checkedAddODT now (castU64toI64 secs * 1000000000)).map
      (fun expiresAt => OAuth2Token.mk r.access_token r.refresh_token
        (some expiresAt) r.scope r.token_type)

/-! ## Authorization-URL builder (`RavelryOAuth2Client::authorize_url`) -/

/-- Ravelry OAuth2 authorization URL (the `AUTH_URL` constant). -/
def AUTH_URL : String := "https://www.ravelry.com/oauth2/auth"

/-- Decoded view of a `url::Url`: its base (scheme, host and path) and
its query pairs in order, as produced by `query_pairs_mut`. -/
structure UrlModel where
  base : String
  query : List (String × String)
deriving DecidableEq, Repr

/-- Model of `RavelryOAuth2Client::authorize_url`.  The client's stored
`client_id` and `redirect_uri` are passed explicitly, and the token
sampled by `CsrfToken::new_random()` is passed as `csrf`.  Query pairs
are appended in source order: `client_id`, `redirect_uri`,
`response_type=code`, `state`, then `scope` (space-joined) only when the
collected scope list is non-empty.  Returns the URL together with a
clone of the CSRF secret. -/
def authorize_url (clientId redirectUri csrf : String)
    (scopes : List String) : UrlModel × String :=
  let scope_str := scopes
  let basePairs := [("client_id", clientId), ("redirect_uri", redirectUri),
    ("response_type", "code"), ("state", csrf)]
  let pairs :=
    if scope_str.isEmpty then basePairs
    else basePairs ++ [("scope", String.intercalate " " scope_str)]
  (⟨AUTH_URL, pairs⟩, csrf)

/-! ## Library error type (crates/ravelry/src/error.rs) -/

/-- Model of `RavelryError`; payloads of wrapped foreign types are their
display strings, and `StatusCode` payloads are the numeric code. -/
inductive RavelryError where
  | Http (msg : String)
  | ApiStatus (status : Nat) (body : String)
  | RateLimited (retryAfterSecs : Option Nat) (body : Option String)
  | NotModified (etag : Option String)
  | Auth (msg : String)
  | Url (msg : String)
  | Json (msg : String)
  | InvalidRequest (msg : String)
  | Io (msg : String)
deriving DecidableEq, Repr

/-- Name of the variant an error was built with: its "kind" as a caller
matching on the enum can observe it. -/
def RavelryError.kindName : RavelryError → String
  | RavelryError.Http _ => "Http"
  | RavelryError.ApiStatus _ _ => "ApiStatus"
  | RavelryError.RateLimited _ _ => "RateLimited"
  | RavelryError.NotModified _ => "NotModified"
  | RavelryError.Auth _ => "Auth"
  | RavelryError.Url _ => "Url"
  | RavelryError.Json _ => "Json"
  | RavelryError.InvalidRequest _ => "InvalidRequest"
  | RavelryError.Io _ => "Io"

/-! ## Token exchange / refresh (`RavelryOAuth2Client`) -/

/-- Model of `http::StatusCode`: the numeric code plus its canonical
reason phrase when the code is a registered one. -/
structure StatusCode where
  code : Nat
  canonicalReason : Option String
deriving DecidableEq, Repr

/-- Rust `StatusCode::is_success`: 2xx. -/
def StatusCode.is_success (s : StatusCode) : Bool :=
  decide (200 ≤ s.code ∧ s.code < 300)

/-- Rust `Display` for `http::StatusCode`: the code, a space, and the
canonical reason phrase (a fixed placeholder for unregistered codes). -/
def StatusCode.display (s : StatusCode) : String :=
  toString s.code ++ " " ++ s.canonicalReason.getD "<unknown status code>"

/-- Observed outcome of the POST to the token endpoint: a transport
error from `send()`, or an HTTP response.  For a response, `bodyText` is
the result of `text()` (read on the failure path, `None` when the body
cannot be read) and `json` is the result of parsing the body as a
`RawTokenResponse` (consulted on the success path). -/
inductive HttpOutcome where
  | transportErr (msg : String)
  | response (status : StatusCode) (bodyText : Option String)
      (json : Except String RawTokenResponse)
deriving Repr

namespace RavelryOAuth2Client

/-- Model of `RavelryOAuth2Client::exchange_code` from the point where
the network outcome is observed.  The request itself (form body
`grant_type=authorization_code`, `code`, `redirect_uri`, and the Basic
auth header) does not influence the returned value and is not modelled;
`now` is the clock reading used to convert `expires_in`.  The outer
`Option` propagates the datetime-overflow panic that
`into_oauth2_token` can raise on the success path. -/
def exchange_code (outcome : HttpOutcome) (now : Int) :
    Option (Except RavelryError OAuth2Token) :=
  match outcome with
  | HttpOutcome.transportErr e =>
    some (Except.error
      (RavelryError.Auth ("Token exchange request failed: " ++ e)))
  | HttpOutcome.response status bodyText json =>
    if status.is_success then
      match json with
      | Except.ok r => (r.into_oauth2_token now).map Except.ok
      | Except.error e =>
        some (Except.error
          (RavelryError.Auth ("Failed to parse token response: " ++ e)))
    else
      some (Except.error (RavelryError.Auth
        ("Token exchange failed with " ++ status.display ++ ": " ++
          bodyText.getD "")))

/-- Model of `RavelryOAuth2Client::refresh` from the point where the
network outcome is observed (same shape as `exchange_code`, with the
refresh wording in the error messages). -/
def refresh (outcome : HttpOutcome) (now : Int) :
    Option (Except RavelryError OAuth2Token) :=
  match outcome with
  | HttpOutcome.transportErr e =>
    some (Except.error
      (RavelryError.Auth ("Token refresh request failed: " ++ e)))
  | HttpOutcome.response status bodyText json =>
    if status.is_success then
      match json with
      | Except.ok r => (r.into_oauth2_token now).map Except.ok
      | Except.error e =>
        some (Except.error
          (RavelryError.Auth ("Failed to parse token response: " ++ e)))
    else
      some (Except.error (RavelryError.Auth
        ("Token refresh failed with " ++ status.display ++ ": " ++
          bodyText.getD "")))

end RavelryOAuth2Client

/-- Kind of the error of a failed token operation (`none` on success or
panic). -/
def errorKindOf : Option (Except RavelryError OAuth2Token) → Option String
  | some (Except.error e) => some e.kindName
  | _ => none

/-! ## Debug formatting of the authenticators
(crates/ravelry/src/auth/basic.rs and oauth2.rs)

Rust's `Formatter::debug_struct` renders a struct as
`Name \x7b field: value, field: value \x7d`, each value through its own
`Debug` implementation; `Debug` for strings quotes and escapes them. -/

/-- Escape of one character inside Rust's `Debug` rendering of a string
(quote, backslash and the common control characters; the `\u` escapes
for other non-printable characters are not needed for the fields
modelled here). -/
def rustCharEscape (c : Char) : String :=
  if c = '"' then "\\\""
  else if c = '\\' then "\\\\"
  else if c = '\n' then "\\n"
  else if c = '\t' then "\\t"
  else if c = '\r' then "\\r"
  else String.singleton c

/-- Rust `Debug` rendering of a `&str`: the escaped text in double
quotes. -/
def rustDebugStr (s : String) : String :=
  "\"" ++ String.join (s.data.map rustCharEscape) ++ "\""

/-- Comma-separated `field: value` list of a `debug_struct` rendering. -/
def fieldsFmt : List (String × String) → String
  | [] => ""
  | [f] => f.1 ++ ": " ++ f.2
  | f :: rest => f.1 ++ ": " ++ f.2 ++ ", " ++ fieldsFmt rest

/-- Rust `Formatter::debug_struct(name).field(..)...finish()` in the
non-alternate form: `name \x7b f1: v1, f2: v2 \x7d`. -/
def debugStructFmt (name : String) (fields : List (String × String)) :
    String :=
  name ++ " \x7b " ++ fieldsFmt fields ++ " \x7d"

/-- Model of `BasicAuth`: HTTP Basic credentials. -/
structure BasicAuth where
  username : String
  password : String
deriving DecidableEq, Repr

/-- Model of the `Debug` impl for `BasicAuth`: the username is shown,
the password field is rendered as the literal `[REDACTED]`. -/
def BasicAuth.fmtDebug (a : BasicAuth) : String :=
  debugStructFmt "BasicAuth"
    [("username", rustDebugStr a.username),
     ("password", rustDebugStr "[REDACTED]")]

/-- Model of `OAuth2Auth`: a bearer-token authenticator. -/
structure OAuth2Auth where
  access_token : String
deriving DecidableEq, Repr

/-- Model of the `Debug` impl for `OAuth2Auth`: the access token field
is rendered as the literal `[REDACTED]`. -/
def OAuth2Auth.fmtDebug (_a : OAuth2Auth) : String :=
  debugStructFmt "OAuth2Auth" [("access_token", rustDebugStr "[REDACTED]")]

end Ravelry

namespace Ravelry

/-! ## Theorems -/

/-- C3 (counterexample): the claimed equivalence `is_expired skew = true ↔
now + skew ≥ expires_at` fails for a skew whose second count does not fit
in an `i64`: for a token expiring one tick after `now`, a skew of
`2 ^ 63` seconds satisfies `now + skew ≥ expires_at`, yet `is_expired`
returns `false` (the failed conversion falls back to a zero skew). -/
theorem is_expired_claim_counterexample :
    (OAuth2Token.mk "t" none (some 1) none none).is_expired
        (StdDuration.mk (2 ^ 63) 0) 0 = some false
    ∧ (0 : Int) + (StdDuration.mk (2 ^ 63) 0).ticks ≥ 1 := by
  constructor
  · decide
  · decide

/-- C3 (amended): `is_expired` returns `false` whenever `expires_at` is
absent; when `expires_at` is present and the skew's second count fits in
an `i64` (so the conversion to the internal signed duration succeeds),
the behaviour splits on the datetime sum `now + skew`: while it stays
inside the representable datetime range the call returns exactly the
comparison `now + skew ≥ expires_at`, and once it leaves that range the
call panics (no boolean is returned). -/
theorem is_expired_spec (t : OAuth2Token) (skew : StdDuration) (now : Int) :
    (t.expires_at = none → t.is_expired skew now = some false)
    ∧ (∀ e, t.expires_at = some e → skew.secs ≤ i64Max →
        odtMinTicks ≤ now + skew.ticks → now + skew.ticks ≤ odtMaxTicks →
        t.is_expired skew now = some (decide (now + skew.ticks ≥ e)))
    ∧ (∀ e, t.expires_at = some e → skew.secs ≤ i64Max →
        (now + skew.ticks < odtMinTicks ∨ odtMaxTicks < now + skew.ticks) →
        t.is_expired skew now = none) := by
  refine ⟨?_, ?_, ?_⟩
  · intro h
    simp [OAuth2Token.is_expired, h]
  · intro e he hs h1 h2
    simp [OAuth2Token.is_expired, he, tryFromStd, hs, checkedAddODT,
      h1, h2]
  · intro e he hs hout
    have hcond : ¬ (odtMinTicks ≤ now + skew.ticks
        ∧ now + skew.ticks ≤ odtMaxTicks) := by
      rcases hout with h | h
      · exact fun hc => absurd hc.1 (not_le.mpr h)
      · exact fun hc => absurd hc.2 (not_le.mpr h)
    simp [OAuth2Token.is_expired, he, tryFromStd, hs, checkedAddODT,
      hcond]

/-- C3 (witness): with the clock at the Unix epoch, a token expiring 4
minutes after `now` is expired under a 5-minute skew, not expired under
a 1-minute skew, and a token without `expires_at` is never expired. -/
theorem is_expired_spec_witness :
    (OAuth2Token.mk "t" none (some 240000000000) none none).is_expired
        (StdDuration.mk 300 0) 0 = some true
    ∧ (OAuth2Token.mk "t" none (some 240000000000) none none).is_expired
        (StdDuration.mk 60 0) 0 = some false
    ∧ (OAuth2Token.mk "t" none none none none).is_expired
        (StdDuration.mk 300 0) 0 = some false := by
  refine ⟨?_, ?_, ?_⟩
  · exact ((is_expired_spec (OAuth2Token.mk "t" none (some 240000000000)
      none none) (StdDuration.mk 300 0) 0).2.1 240000000000 rfl
        (by decide) (by decide) (by decide)).trans (by decide)
  · exact ((is_expired_spec (OAuth2Token.mk "t" none (some 240000000000)
      none none) (StdDuration.mk 60 0) 0).2.1 240000000000 rfl
        (by decide) (by decide) (by decide)).trans (by decide)
  · exact (is_expired_spec (OAuth2Token.mk "t" none none none none)
      (StdDuration.mk 300 0) 0).1 rfl

/-- C10: when the supplied skew cannot be converted to the internal
signed duration (its second count exceeds `i64::MAX`), `is_expired`
neither fails nor panics — for any valid clock reading the expiry
comparison is evaluated with a zero skew (the zero sum cannot leave the
datetime range). -/
theorem is_expired_unconvertible_skew (t : OAuth2Token)
    (skew : StdDuration) (now e : Int) (he : t.expires_at = some e)
    (hs : i64Max < skew.secs) (hlo : odtMinTicks ≤ now)
    (hhi : now ≤ odtMaxTicks) :
    t.is_expired skew now = some (decide (now ≥ e)) := by
  have hz : now + (0 : Int) = now := add_zero now
  simp [OAuth2Token.is_expired, he, tryFromStd, Nat.not_le.mpr hs,
    checkedAddODT, hz, hlo, hhi]

/-- C10 (witness): evaluation of `is_expired` at the Unix epoch with a
skew of `2 ^ 63` seconds and 5 nanoseconds, which the signed conversion
rejects. -/
theorem is_expired_unconvertible_skew_witness :
    (OAuth2Token.mk "t" none (some 1) none none).is_expired
        (StdDuration.mk (2 ^ 63) 5) 0 = some (decide ((0 : Int) ≥ 1)) :=
  is_expired_unconvertible_skew (OAuth2Token.mk "t" none (some 1) none none)
    (StdDuration.mk (2 ^ 63) 5) 0 1 rfl (by decide) (by decide) (by decide)

/-- Helper: the `u64 as i64` cast is the identity below `2 ^ 63`. -/
theorem castU64toI64_of_lt (n : Nat) (h : n < 2 ^ 63) :
    castU64toI64 n = (n : Int) := by
  have hm : n % u64Mod = n :=
    Nat.mod_eq_of_lt (lt_trans h (by norm_num [u64Mod]))
  simp only [castU64toI64]
  rw [hm, if_pos h]

/-- Helper: the `u64 as i64` cast subtracts `2 ^ 64` from values in
`[2 ^ 63, 2 ^ 64)`. -/
theorem castU64toI64_of_ge (n : Nat) (hge : 2 ^ 63 ≤ n)
    (hlt : n < 2 ^ 64) : castU64toI64 n = (n : Int) - 2 ^ 64 := by
  have hm : n % u64Mod = n := Nat.mod_eq_of_lt (by simpa [u64Mod] using hlt)
  simp only [castU64toI64]
  rw [hm, if_neg (Nat.not_lt.mpr hge)]
  norm_num [u64Mod]

/-- C4 (counterexample): for a provider response with
`expires_in = 2 ^ 63` received at the Unix epoch, the `as i64` cast
wraps to `-2 ^ 63` seconds and the datetime sum leaves the representable
range, so the conversion PANICS (modelled `none`) — no token with the
claimed `expires_at = now + expires_in` seconds (or any token at all) is
produced. -/
theorem into_oauth2_token_claim_counterexample :
    (RawTokenResponse.mk "t" none (some (2 ^ 63)) none
        none).into_oauth2_token 0 = none
    ∧ (RawTokenResponse.mk "t" none (some (2 ^ 63)) none
        none).into_oauth2_token 0
      ≠ some (OAuth2Token.mk "t" none
          (some ((2 ^ 63 : Int) * 1000000000)) none none) := by
  constructor
  · decide
  · decide

/-- C4 (amended): whenever the conversion returns a token, that token
copies `access_token`, `refresh_token`, `scope` and `token_type` from
the response verbatim; `expires_at` is absent when `expires_in` is
absent; when `expires_in` is present the expiry is the receipt time plus
`expires_in as i64` seconds computed through the checked datetime add —
for `expires_in < 2 ^ 63` with the sum inside the representable datetime
range this is exactly `now` plus `expires_in` seconds, for
`expires_in ≥ 2 ^ 63` the cast wraps to `expires_in − 2 ^ 64` seconds,
and whenever the resulting instant falls outside the representable
datetime range the conversion panics instead of producing a token. -/
theorem into_oauth2_token_spec (r : RawTokenResponse) (now : Int) :
    (∀ t, r.into_oauth2_token now = some t →
        t.access_token = r.access_token
        ∧ t.refresh_token = r.refresh_token
        ∧ t.scope = r.scope ∧ t.token_type = r.token_type)
    ∧ (r.expires_in = none →
        r.into_oauth2_token now
          = some (OAuth2Token.mk r.access_token r.refresh_token none
              r.scope r.token_type))
    ∧ (∀ secs, r.expires_in = some secs → secs < 2 ^ 63 →
        odtMinTicks ≤ now + (secs : Int) * 1000000000 →
        now + (secs : Int) * 1000000000 ≤ odtMaxTicks →
        r.into_oauth2_token now
          = some (OAuth2Token.mk r.access_token r.refresh_token
              (some (now + (secs : Int) * 1000000000)) r.scope
              r.token_type))
    ∧ (∀ secs, r.expires_in = some secs →
        (now + castU64toI64 secs * 1000000000 < odtMinTicks
          ∨ odtMaxTicks < now + castU64toI64 secs * 1000000000) →
        r.into_oauth2_token now = none)
    ∧ (∀ secs, r.expires_in = some secs → 2 ^ 63 ≤ secs → secs < 2 ^ 64 →
        odtMinTicks ≤ now + ((secs : Int) - 2 ^ 64) * 1000000000 →
        now + ((secs : Int) - 2 ^ 64) * 1000000000 ≤ odtMaxTicks →
        r.into_oauth2_token now
          = some (OAuth2Token.mk r.access_token r.refresh_token
              (some (now + ((secs : Int) - 2 ^ 64) * 1000000000)) r.scope
              r.token_type)) := by
  refine ⟨?_, ?_, ?_, ?_, ?_⟩
  · intro t ht
    cases h : r.expires_in with
    | none =>
      simp [RawTokenResponse.into_oauth2_token, h] at ht
      simp [← ht]
    | some secs =>
      cases hc : checkedAddODT now (castU64toI64 secs * 1000000000) with
      | none => simp [RawTokenResponse.into_oauth2_token, h, hc] at ht
      | some v =>
        simp [RawTokenResponse.into_oauth2_token, h, hc] at ht
        simp [← ht]
  · intro h
    simp [RawTokenResponse.into_oauth2_token, h]
  · intro secs h hlt h1 h2
    simp [RawTokenResponse.into_oauth2_token, h,
      castU64toI64_of_lt secs hlt, checkedAddODT, h1, h2]
  · intro secs h hout
    have hcond : ¬ (odtMinTicks ≤ now + castU64toI64 secs * 1000000000
        ∧ now + castU64toI64 secs * 1000000000 ≤ odtMaxTicks) := by
      rcases hout with h' | h'
      · exact fun hc => absurd hc.1 (not_le.mpr h')
      · exact fun hc => absurd hc.2 (not_le.mpr h')
    simp [RawTokenResponse.into_oauth2_token, h, checkedAddODT, hcond]
  · intro secs h hge hlt h1 h2
    have h1' := h1
    have h2' := h2
    norm_num at h1' h2'
    simp [RawTokenResponse.into_oauth2_token, h,
      castU64toI64_of_ge secs hge hlt, checkedAddODT, h1', h2']

/-- C4 (witness): from the response
`access_token = tok123, expires_in = 3600` received at the Unix epoch,
the conversion succeeds and the token has `access_token = tok123`, no
refresh token, and `expires_at = now + 3600` seconds. -/
theorem into_oauth2_token_spec_witness :
    (RawTokenResponse.mk "tok123" none (some 3600) none
        none).into_oauth2_token 0
      = some (OAuth2Token.mk "tok123" none
          (some (0 + (3600 : Int) * 1000000000)) none none) :=
  (into_oauth2_token_spec (RawTokenResponse.mk "tok123" none (some 3600)
    none none) 0).2.2.1 3600 rfl (by decide) (by decide) (by decide)

/-- Helper: the `find_map`-with-`strip_prefix` scan of the query
parameters equals finding the first parameter that starts with `code=`
and dropping the prefix. -/
theorem stripPreL_eq (p s : List Char) :
    stripPreL p s
      = if p.isPrefixOf s then some (s.drop p.length) else none := by
  induction p generalizing s with
  | nil => simp [stripPreL, List.isPrefixOf]
  | cons a p ih =>
    cases s with
    | nil => simp [stripPreL, List.isPrefixOf]
    | cons b s =>
      by_cases hab : a = b
      · simp [stripPreL, List.isPrefixOf, hab, ih]
      · simp [stripPreL, List.isPrefixOf, hab]

/-- Helper: the `find_map`-with-`strip_prefix` scan of the query
parameters equals finding the first parameter that starts with `code=`
and dropping the five-character prefix. -/
theorem findSome_stripPre_code (l : List String) :
    l.findSome? (fun p => stripPre "code=" p)
      = (l.find? (fun p => List.isPrefixOf "code=".data p.data)).map
          (fun p => String.mk (p.data.drop 5)) := by
  induction l with
  | nil => rfl
  | cons a t ih =>
    rw [List.findSome?_cons, List.find?_cons]
    cases ha : List.isPrefixOf "code=".data a.data with
    | true => simp [stripPre, stripPreL_eq, ha]
    | false => simpa [stripPre, stripPreL_eq, ha] using ih

/-- Helper: the `strip_prefix("/callback?").or_else(strip_prefix("/callback/?"))`
choice equals the spec's nested prefix test. -/
theorem orElse_stripPre_callback (path : String) :
    Option.orElse (stripPre "/callback?" path)
        (fun _ => stripPre "/callback/?" path)
      = (if List.isPrefixOf "/callback?".data path.data then
           some (String.mk (path.data.drop 10))
         else if List.isPrefixOf "/callback/?".data path.data then
           some (String.mk (path.data.drop 11))
         else none) := by
  cases h1 : List.isPrefixOf "/callback?".data path.data with
  | true => simp [stripPre, stripPreL_eq, h1, Option.orElse]
  | false =>
    cases h2 : List.isPrefixOf "/callback/?".data path.data with
    | true => simp [stripPre, stripPreL_eq, h1, h2, Option.orElse]
    | false => simp [stripPre, stripPreL_eq, h1, h2, Option.orElse]

/-- C1: the code extracted by the callback wait's request parse agrees
with the spec's description — the request line's path component (its
second whitespace-separated word) must start with `/callback?` or
`/callback/?`, and the first `code` parameter of the remaining query
string is returned; when there is none the wait fails with the
`No authorization code received in callback` error.  In particular the
request line `GET /callback?code=ABC123&state=xyz HTTP/1.1` yields
exactly `ABC123`. -/
theorem callback_code_extraction_spec (line : String) :
    extract_code line = spec_extract_code line
    ∧ handle_request line
      = (match spec_extract_code line with
         | some v => Except.ok v
         | none => Except.error (CliError.MissingCredentials
             "No authorization code received in callback"))
    ∧ handle_request "GET /callback?code=ABC123&state=xyz HTTP/1.1"
      = Except.ok "ABC123" := by
  have hmain : extract_code line = spec_extract_code line := by
    unfold extract_code spec_extract_code
    cases hp : (splitWhitespace line)[1]? with
    | none => rfl
    | some path =>
      rw [Option.some_bind, orElse_stripPre_callback]
      cases h1 : List.isPrefixOf "/callback?".data path.data with
      | true => simp [h1, findSome_stripPre_code]
      | false =>
        cases h2 : List.isPrefixOf "/callback/?".data path.data with
        | true => simp [h1, h2, findSome_stripPre_code]
        | false => simp [h1, h2]
  refine ⟨hmain, ?_, ?_⟩
  · unfold handle_request
    rw [hmain]
  · unfold handle_request
    have hx : extract_code "GET /callback?code=ABC123&state=xyz HTTP/1.1"
        = some "ABC123" := by decide
    rw [hx]

/-- Helper: the accept loop ignores any block of handshake failures at
the front of the event trace. -/
theorem acceptLoop_skips_hsFail (l : List ConnEvent)
    (hf : ∀ e ∈ l, ∃ s, e = ConnEvent.hsFail s) (tail : List ConnEvent) :
    acceptLoop (l ++ tail) = acceptLoop tail := by
  induction l with
  | nil => rfl
  | cons a t ih =>
    obtain ⟨s, hs⟩ := hf a (by simp)
    subst hs
    exact ih (fun e he => hf e (by simp [he]))

/-- C2: a TLS handshake failure never terminates the callback wait — the
wait over a trace of handshake failures alone reaches no outcome (it is
still blocked in `accept`), prepending a handshake failure to any trace
leaves the outcome unchanged, and after any number of handshake failures
the first successful handshake's request line is parsed as usual; in
particular a later successful handshake carrying
`GET /callback?code=ABC123&state=xyz HTTP/1.1` still yields the code
`ABC123`. -/
theorem wait_survives_handshake_failures (fails : List ConnEvent)
    (m line : String) (rest : List ConnEvent)
    (hf : ∀ e ∈ fails, ∃ s, e = ConnEvent.hsFail s) :
    wait_for_oauth_callback fails = none
    ∧ wait_for_oauth_callback
        (ConnEvent.hsFail m :: fails ++ ConnEvent.hsOk line :: rest)
        = wait_for_oauth_callback (fails ++ ConnEvent.hsOk line :: rest)
    ∧ wait_for_oauth_callback (fails ++ ConnEvent.hsOk line :: rest)
        = some (handle_request line)
    ∧ wait_for_oauth_callback (fails ++
        ConnEvent.hsOk "GET /callback?code=ABC123&state=xyz HTTP/1.1"
          :: rest)
        = some (Except.ok "ABC123") := by
  have h0 : acceptLoop fails = none := by
    have h := acceptLoop_skips_hsFail fails hf []
    simpa using h
  have hok : ∀ (line : String) (rest : List ConnEvent),
      acceptLoop (fails ++ ConnEvent.hsOk line :: rest)
        = some (Except.ok line) := by
    intro line rest
    rw [acceptLoop_skips_hsFail fails hf]
    rfl
  refine ⟨?_, ?_, ?_, ?_⟩
  · unfold wait_for_oauth_callback
    rw [h0]
  · rfl
  · unfold wait_for_oauth_callback
    rw [hok line rest]
  · unfold wait_for_oauth_callback
    rw [hok "GET /callback?code=ABC123&state=xyz HTTP/1.1" rest]
    have hx : extract_code "GET /callback?code=ABC123&state=xyz HTTP/1.1"
        = some "ABC123" := by decide
    simp [handle_request, hx]

/-- C2 (witness): evaluation on the trace of one handshake failure
followed by a successful handshake delivering a callback request. -/
theorem wait_survives_handshake_failures_witness :
    wait_for_oauth_callback [ConnEvent.hsFail "x"] = none
    ∧ wait_for_oauth_callback (ConnEvent.hsFail "m" ::
        [ConnEvent.hsFail "x"] ++ ConnEvent.hsOk
          "GET /callback?code=ABC123&state=xyz HTTP/1.1" :: [])
        = wait_for_oauth_callback ([ConnEvent.hsFail "x"] ++
            ConnEvent.hsOk
              "GET /callback?code=ABC123&state=xyz HTTP/1.1" :: [])
    ∧ wait_for_oauth_callback ([ConnEvent.hsFail "x"] ++
        ConnEvent.hsOk
          "GET /callback?code=ABC123&state=xyz HTTP/1.1" :: [])
        = some (handle_request
            "GET /callback?code=ABC123&state=xyz HTTP/1.1")
    ∧ wait_for_oauth_callback ([ConnEvent.hsFail "x"] ++
        ConnEvent.hsOk
          "GET /callback?code=ABC123&state=xyz HTTP/1.1" :: [])
        = some (Except.ok "ABC123") :=
  wait_survives_handshake_failures [ConnEvent.hsFail "x"] "m"
    "GET /callback?code=ABC123&state=xyz HTTP/1.1" []
    (by intro e he; exact ⟨"x", by simpa using he⟩)

/-- C5: the authorization URL sits on the provider's authorization
endpoint; its query parameters are exactly `client_id`, `redirect_uri`,
`response_type`, `state` and (only when the scope list is non-empty)
`scope`; `response_type` is `code`, `scope` is the scopes joined by
single spaces, and the state value returned alongside the URL is exactly
the URL's `state` query parameter. -/
theorem authorize_url_query_spec (cid ruri csrf : String)
    (scopes : List String) :
    (authorize_url cid ruri csrf scopes).1.base = AUTH_URL
    ∧ (authorize_url cid ruri csrf scopes).1.query.map Prod.fst
      = ["client_id", "redirect_uri", "response_type", "state"]
        ++ (if scopes = [] then [] else ["scope"])
    ∧ List.lookup "client_id" (authorize_url cid ruri csrf scopes).1.query
      = some cid
    ∧ List.lookup "redirect_uri" (authorize_url cid ruri csrf scopes).1.query
      = some ruri
    ∧ List.lookup "response_type"
        (authorize_url cid ruri csrf scopes).1.query = some "code"
    ∧ List.lookup "state" (authorize_url cid ruri csrf scopes).1.query
      = some ((authorize_url cid ruri csrf scopes).2)
    ∧ List.lookup "scope" (authorize_url cid ruri csrf scopes).1.query
      = (if scopes = [] then none
         else some (String.intercalate " " scopes)) := by
  cases scopes with
  | nil =>
    refine ⟨rfl, rfl, rfl, rfl, rfl, rfl, rfl⟩
  | cons a t =>
    refine ⟨rfl, rfl, rfl, rfl, rfl, rfl, rfl⟩

/-- C6: two `authorize_url` calls with the same client data and scopes
but distinct sampled CSRF tokens return distinct state values, and the
two URLs differ only in the `state` query parameter: same base, and the
query lists agree except for the one `state` entry (no other entry uses
the key `state`). -/
theorem authorize_url_csrf_uniqueness (cid ruri c1 c2 : String)
    (scopes : List String) (h : c1 ≠ c2) :
    (authorize_url cid ruri c1 scopes).2
      ≠ (authorize_url cid ruri c2 scopes).2
    ∧ (authorize_url cid ruri c1 scopes).1.base
      = (authorize_url cid ruri c2 scopes).1.base
    ∧ ∃ pre post,
        (authorize_url cid ruri c1 scopes).1.query
          = pre ++ ("state", (authorize_url cid ruri c1 scopes).2) :: post
        ∧ (authorize_url cid ruri c2 scopes).1.query
          = pre ++ ("state", (authorize_url cid ruri c2 scopes).2) :: post
        ∧ (∀ kv ∈ pre, kv.1 ≠ "state")
        ∧ (∀ kv ∈ post, kv.1 ≠ "state") := by
  refine ⟨h, rfl, ?_⟩
  refine ⟨[("client_id", cid), ("redirect_uri", ruri),
    ("response_type", "code")],
    (if scopes.isEmpty then []
     else [("scope", String.intercalate " " scopes)]), ?_, ?_, ?_, ?_⟩
  · cases scopes <;> rfl
  · cases scopes <;> rfl
  · intro kv hkv
    simp only [List.mem_cons, List.not_mem_nil, or_false] at hkv
    rcases hkv with rfl | rfl | rfl <;> simp
  · intro kv hkv
    cases scopes with
    | nil => simp at hkv
    | cons a t =>
      simp at hkv
      subst hkv
      simp

/-- C6 (witness): two calls with scope list `[offline]` and distinct
sampled CSRF tokens. -/
theorem authorize_url_csrf_uniqueness_witness :
    (authorize_url "id" "https://localhost:8080/callback" "aaa"
        ["offline"]).2
      ≠ (authorize_url "id" "https://localhost:8080/callback" "bbb"
          ["offline"]).2 :=
  (authorize_url_csrf_uniqueness "id" "https://localhost:8080/callback"
    "aaa" "bbb" ["offline"] (by decide)).1

/-- C7: when the token endpoint answers with a non-success HTTP status,
both `exchange_code` and `refresh` return an `Auth` error whose message
contains the status code and the response body, and in particular never
return a parsed token. -/
theorem token_endpoint_error_spec (s : StatusCode) (b : Option String)
    (j : Except String RawTokenResponse) (now : Int)
    (h : s.is_success = false) :
    (∃ msg,
      RavelryOAuth2Client.exchange_code (HttpOutcome.response s b j) now
        = some (Except.error (RavelryError.Auth msg))
      ∧ (∃ p q, msg = p ++ toString s.code ++ q)
      ∧ (∃ p, msg = p ++ b.getD ""))
    ∧ (∃ msg,
      RavelryOAuth2Client.refresh (HttpOutcome.response s b j) now
        = some (Except.error (RavelryError.Auth msg))
      ∧ (∃ p q, msg = p ++ toString s.code ++ q)
      ∧ (∃ p, msg = p ++ b.getD "")) := by
  constructor
  · refine ⟨"Token exchange failed with " ++ s.display ++ ": " ++ b.getD "",
      ?_, ?_, ?_⟩
    · simp [RavelryOAuth2Client.exchange_code, h]
    · refine ⟨"Token exchange failed with ",
        " " ++ s.canonicalReason.getD "<unknown status code>" ++ ": "
          ++ b.getD "", ?_⟩
      simp [StatusCode.display, String.append_assoc]
    · refine ⟨"Token exchange failed with " ++ s.display ++ ": ", ?_⟩
      simp [String.append_assoc]
  · refine ⟨"Token refresh failed with " ++ s.display ++ ": " ++ b.getD "",
      ?_, ?_, ?_⟩
    · simp [RavelryOAuth2Client.refresh, h]
    · refine ⟨"Token refresh failed with ",
        " " ++ s.canonicalReason.getD "<unknown status code>" ++ ": "
          ++ b.getD "", ?_⟩
      simp [StatusCode.display, String.append_assoc]
    · refine ⟨"Token refresh failed with " ++ s.display ++ ": ", ?_⟩
      simp [String.append_assoc]

/-- C7 (witness): evaluation at a 401 response whose body reads `nope`. -/
theorem token_endpoint_error_spec_witness :
    (∃ msg,
      RavelryOAuth2Client.exchange_code
        (HttpOutcome.response (StatusCode.mk 401 (some "Unauthorized"))
          (some "nope") (Except.error "eof")) 0
        = some (Except.error (RavelryError.Auth msg))
      ∧ (∃ p q, msg = p ++ toString (401 : Nat) ++ q)
      ∧ (∃ p, msg = p ++ (some "nope").getD ""))
    ∧ (∃ msg,
      RavelryOAuth2Client.refresh
        (HttpOutcome.response (StatusCode.mk 401 (some "Unauthorized"))
          (some "nope") (Except.error "eof")) 0
        = some (Except.error (RavelryError.Auth msg))
      ∧ (∃ p q, msg = p ++ toString (401 : Nat) ++ q)
      ∧ (∃ p, msg = p ++ (some "nope").getD "")) :=
  token_endpoint_error_spec (StatusCode.mk 401 (some "Unauthorized"))
    (some "nope") (Except.error "eof") 0 (by decide)

/-- C8 (counterexample): a transport failure and a 401 response from the
token endpoint produce errors of the SAME kind — both are the `Auth`
variant — refuting the claim that transport failures are surfaced as an
error kind distinct from the one used for non-success HTTP responses. -/
theorem transport_and_status_error_same_kind :
    errorKindOf (RavelryOAuth2Client.exchange_code
        (HttpOutcome.transportErr "connection refused") 0)
      = errorKindOf (RavelryOAuth2Client.exchange_code
        (HttpOutcome.response (StatusCode.mk 401 (some "Unauthorized"))
          (some "unauthorized") (Except.error "eof")) 0)
    ∧ errorKindOf (RavelryOAuth2Client.exchange_code
        (HttpOutcome.transportErr "connection refused") 0)
      = some "Auth" := by
  constructor <;> rfl

/-- C8 (amended): network/transport failures during `exchange_code` and
`refresh` are surfaced as the same `Auth` error kind as non-success HTTP
responses; the two situations are distinguishable only by the message
text — `Token exchange/refresh request failed: <cause>` for transport
failures versus `Token exchange/refresh failed with <status>: <body>`
for HTTP rejections. -/
theorem exchange_refresh_error_kinds (e : String) (s : StatusCode)
    (b : Option String) (j : Except String RawTokenResponse) (now : Int)
    (h : s.is_success = false) :
    RavelryOAuth2Client.exchange_code (HttpOutcome.transportErr e) now
      = some (Except.error
          (RavelryError.Auth ("Token exchange request failed: " ++ e)))
    ∧ RavelryOAuth2Client.refresh (HttpOutcome.transportErr e) now
      = some (Except.error
          (RavelryError.Auth ("Token refresh request failed: " ++ e)))
    ∧ (∃ m,
        RavelryOAuth2Client.exchange_code (HttpOutcome.response s b j) now
          = some (Except.error
              (RavelryError.Auth ("Token exchange failed with " ++ m))))
    ∧ (∃ m,
        RavelryOAuth2Client.refresh (HttpOutcome.response s b j) now
          = some (Except.error
              (RavelryError.Auth ("Token refresh failed with " ++ m)))) := by
  refine ⟨rfl, rfl,
    ⟨s.display ++ ": " ++ b.getD "", ?_⟩,
    ⟨s.display ++ ": " ++ b.getD "", ?_⟩⟩
  · simp [RavelryOAuth2Client.exchange_code, h, String.append_assoc]
  · simp [RavelryOAuth2Client.refresh, h, String.append_assoc]

/-- C8 (witness): evaluation at a concrete transport failure and a
concrete 401 response. -/
theorem exchange_refresh_error_kinds_witness :
    RavelryOAuth2Client.exchange_code
        (HttpOutcome.transportErr "timed out") 0
      = some (Except.error
          (RavelryError.Auth ("Token exchange request failed: "
            ++ "timed out")))
    ∧ RavelryOAuth2Client.refresh (HttpOutcome.transportErr "timed out") 0
      = some (Except.error
          (RavelryError.Auth ("Token refresh request failed: "
            ++ "timed out")))
    ∧ (∃ m,
        RavelryOAuth2Client.exchange_code
          (HttpOutcome.response (StatusCode.mk 401 (some "Unauthorized"))
            (some "x") (Except.error "eof")) 0
          = some (Except.error
              (RavelryError.Auth ("Token exchange failed with " ++ m))))
    ∧ (∃ m,
        RavelryOAuth2Client.refresh
          (HttpOutcome.response (StatusCode.mk 401 (some "Unauthorized"))
            (some "x") (Except.error "eof")) 0
          = some (Except.error
              (RavelryError.Auth ("Token refresh failed with " ++ m)))) :=
  exchange_refresh_error_kinds "timed out"
    (StatusCode.mk 401 (some "Unauthorized")) (some "x")
    (Except.error "eof") 0 (by decide)

/-- C9: the debug representations of both authenticators are independent
of the secret field — the rendered text is the same whatever the
password (for `BasicAuth`) or access token (for `OAuth2Auth`) is — and
in place of the secret the fixed marker `[REDACTED]` is rendered. -/
theorem debug_redacts_secrets (u p p2 t t2 : String) :
    BasicAuth.fmtDebug (BasicAuth.mk u p)
      = BasicAuth.fmtDebug (BasicAuth.mk u p2)
    ∧ (∃ pre post,
        BasicAuth.fmtDebug (BasicAuth.mk u p)
          = pre ++ "[REDACTED]" ++ post)
    ∧ OAuth2Auth.fmtDebug (OAuth2Auth.mk t)
      = OAuth2Auth.fmtDebug (OAuth2Auth.mk t2)
    ∧ (∃ pre post,
        OAuth2Auth.fmtDebug (OAuth2Auth.mk t)
          = pre ++ "[REDACTED]" ++ post) := by
  have hred : rustDebugStr "[REDACTED]" = "\"" ++ "[REDACTED]" ++ "\"" := by
    decide
  refine ⟨rfl, ?_, rfl, ?_⟩
  · refine ⟨"BasicAuth" ++ " \x7b " ++ "username" ++ ": "
      ++ rustDebugStr u ++ ", " ++ "password" ++ ": " ++ "\"",
      "\"" ++ " \x7d", ?_⟩
    simp [BasicAuth.fmtDebug, debugStructFmt, fieldsFmt, hred,
      String.append_assoc]
    rw [← String.append_assoc]
    rfl
  · refine ⟨"OAuth2Auth" ++ " \x7b " ++ "access_token" ++ ": " ++ "\"",
      "\"" ++ " \x7d", ?_⟩
    simp [OAuth2Auth.fmtDebug, debugStructFmt, fieldsFmt, hred,
      String.append_assoc]

end Ravelry
